import Mathlib

/-!
Shallow embedding of the core logic of the `tap-xero` extractor
(`tap_xero/auth.py`, `tap_xero/client.py`, `tap_xero/streams.py`) together
with theorems settling the specification claims about it.

Machine-level conventions of the embedding:
* Python dictionaries appearing as query-parameter / form-body payloads are
  `List (String × _)` association lists in insertion order.
* Python `None` is `Option.none`; Python truthiness of a value `v` (as in
  `if starting_timestamp:`) is modelled explicitly (`none` and the empty
  string / zero are falsy).
* Fallible JSON decoding of a response body is a sum (`RespBody`).
-/

namespace TapXero

/-- Does the character list `hay` start with `needle`? (helper for the
substring test that embeds Python's `needle in hay`). -/
def listStartsWith : List Char → List Char → Bool
  | [], _ => true
  | _ :: _, [] => false
  | a :: as, b :: bs => a = b && listStartsWith as bs

/-- Scan of `hay` for an occurrence of `needle` starting at any position. -/
def listHasSub (needle : List Char) : List Char → Bool
  | [] => listStartsWith needle []
  | c :: cs => listStartsWith needle (c :: cs) || listHasSub needle cs

/-- Embedding of Python's substring test `needle in hay`. -/
def strIn (needle hay : String) : Bool :=
  listHasSub needle.data hay.data

/-! ## TokenManager, direct mode (`tap_xero/auth.py`, `XeroOAuth2Authenticator`)

The authenticator keeps the OAuth refresh token in the private attribute
`_refresh_token`, assigned exactly once, in `__init__`.  The token-refresh
request body is built by the `oauth_request_body` property. -/

/-- The mutable state of a direct-mode `XeroOAuth2Authenticator` that the
refresh cycle touches: `_refresh_token` (set in `__init__`) and the current
access token. -/
structure DirectAuthState where
  refresh_token : String
  access_token : Option String
  deriving Repr, DecidableEq

/-- `XeroOAuth2Authenticator.__init__` (auth.py:20-45): stores the
constructor's `refresh_token` into `self._refresh_token`; no access token yet. -/
def XeroOAuth2Authenticator.init (refreshToken : String) : DirectAuthState :=
  { refresh_token := refreshToken, access_token := none }

/-- `XeroOAuth2Authenticator.oauth_request_body` (auth.py:66-77): the
`grant_type=refresh_token` form body, carrying `self._refresh_token`. -/
def XeroOAuth2Authenticator.oauth_request_body (s : DirectAuthState) :
    List (String × String) :=
  [("grant_type", "refresh_token"), ("refresh_token", s.refresh_token)]

/-- A provider token response: an access token, and (Xero rotates refresh
tokens) possibly a fresh refresh token in the JSON body. -/
structure TokenResponse where
  access_token : String
  refresh_token : Option String
  deriving Repr, DecidableEq

/-- The token-refresh state update of a direct-mode authenticator.
`XeroOAuth2Authenticator` (auth.py) defines no `update_access_token`
override, so the inherited SDK refresh runs: it posts `oauth_request_body`
and stores `token_json["access_token"]` (plus expiry bookkeeping).  Nothing
anywhere assigns `self._refresh_token` after `__init__` — the attribute is
private to this repository, so the inherited refresh leaves it unchanged,
which is what this definition records. -/
def XeroOAuth2Authenticator.update_access_token (s : DirectAuthState)
    (resp : TokenResponse) : DirectAuthState :=
  { s with access_token := some resp.access_token }

/-! ## ResponseClassifier (`tap_xero/client.py`, `XeroStream.validate_response`)

`validate_response` raises `XeroRateLimitError` (a subclass of the SDK's
`RetriableAPIError`, hence retried), `RetriableAPIError` (retried), or
`XeroAPIError` (a plain `Exception`, never retried, i.e. fatal), or returns
normally (success).  The embedding returns the raised outcome as a value. -/

/-- Outcome of `XeroStream.validate_response`: which exception (if any) is
raised, with its message. -/
inductive ApiOutcome where
  | success
  | xeroRateLimitError (msg : String)
  | retriableAPIError (msg : String)
  | xeroAPIError (msg : String)
  deriving Repr, DecidableEq

/-- The body of an HTTP response as `validate_response` consumes it: either
`response.json()` succeeds and yields an object (string-valued fields are all
the classifier reads), or decoding fails and only `response.text` is
available. -/
inductive RespBody where
  | jsonBody (fields : List (String × String))
  | rawBody (text : String)
  deriving Repr, DecidableEq

/-- `XeroStream.validate_response` (client.py:206-251).  `retryAfter` is
`response.headers.get("Retry-After")` (`none` when the header is absent);
note the walrus `if retry_after := ...` treats an empty header value as
falsy, exactly like absence. -/
def XeroStream.validate_response (status : Nat) (retryAfter : Option String)
    (body : RespBody) : ApiOutcome :=
  if status = 429 then
    match retryAfter with
    | some ra =>
      if ra ≠ "" then
        ApiOutcome.xeroRateLimitError
          ("Rate limit exceeded (429). Retry-After: " ++ ra)
      else ApiOutcome.xeroAPIError "Daily API rate limit exceeded. Cannot retry."
    | none => ApiOutcome.xeroAPIError "Daily API rate limit exceeded. Cannot retry."
  else if status = 503 then
    ApiOutcome.retriableAPIError "Service unavailable (503). Will retry."
  else if status ≥ 500 then
    ApiOutcome.retriableAPIError
      ("Server error (" ++ toString status ++ "). Will retry.")
  else if status = 401 then
    ApiOutcome.retriableAPIError "Unauthorized (401). Token may need refresh."
  else if status ≥ 400 then
    ApiOutcome.xeroAPIError
      (match body with
       | RespBody.jsonBody fields =>
         match fields.lookup "Message" with
         | some m => "Client error " ++ toString status ++ ": " ++ m
         | none => "Client error " ++ toString status
       | RespBody.rawBody t => "Client error " ++ toString status ++ ": " ++ t)
  else ApiOutcome.success

/-- Retryable / fatal / success view of an outcome.  `XeroRateLimitError`
derives from `RetriableAPIError`, so it is retryable; `XeroAPIError` derives
from plain `Exception`, so it is fatal (the SDK retry loop only catches
`RetriableAPIError`). -/
inductive Kind where
  | success
  | retryable
  | fatal
  deriving Repr, DecidableEq

/-- Classification kind of each raised exception type. -/
def ApiOutcome.kind : ApiOutcome → Kind
  | ApiOutcome.success => Kind.success
  | ApiOutcome.xeroRateLimitError _ => Kind.retryable
  | ApiOutcome.retriableAPIError _ => Kind.retryable
  | ApiOutcome.xeroAPIError _ => Kind.fatal

/-- Spec-side classification map (spec §4.2 rules 1-6, amended only in that a
`Retry-After` header carrying an empty value behaves like an absent header,
as the code's truthiness test forces): 429 with a non-empty `Retry-After` ⇒
retryable, 429 otherwise ⇒ fatal, 503 ⇒ retryable, other ≥500 ⇒ retryable,
401 ⇒ retryable, other ≥400 ⇒ fatal, else success. -/
def classifySpec (status : Nat) (retryAfter : Option String) : Kind :=
  if status = 429 then
    match retryAfter with
    | some ra => if ra ≠ "" then Kind.retryable else Kind.fatal
    | none => Kind.fatal
  else if status = 503 then Kind.retryable
  else if status ≥ 500 then Kind.retryable
  else if status = 401 then Kind.retryable
  else if status ≥ 400 then Kind.fatal
  else Kind.success

/-! ## DateNormalizer (`tap_xero/client.py`)

`parse_dotnet_date` matches the string against the regex
`\/Date\((-?\d+)([\+\-]\d{4})?\)\/` with `re.match` (anchored at the start,
trailing text allowed), converts the millisecond value (clamping negatives to
epoch zero) through `datetime.fromtimestamp(·, tz=utc)` and formats with
`strftime("%Y-%m-%dT%H:%M:%S.%fZ")`.  The timezone offset group is matched
but never used.

Embedding notes: the float division `timestamp_ms / 1000.0` is modelled as
exact integer millisecond arithmetic (the float can only perturb the
microsecond digits of out-of-the-ordinary inputs, never the clamping or the
output format), and `datetime`'s year range (`fromtimestamp` raises past
year 9999) is modelled by fixed-width fields plus the explicit in-range
hypotheses carried by the general theorems below. -/

/-- Digit character for `n % 10`. -/
def digitChar (n : Nat) : Char :=
  (['0', '1', '2', '3', '4', '5', '6', '7', '8', '9'].getD (n % 10) '0')

/-- The characters of `strftime("%Y-%m-%dT%H:%M:%S.%fZ")` with each numeric
field zero-padded to its fixed width (4-digit year for the supported years
1970-9999, two digits for month/day/hour/minute/second, six for the
microseconds). -/
def timestampChars (y mo d hh mi ss us : Nat) : List Char :=
  [digitChar (y / 1000), digitChar (y / 100), digitChar (y / 10), digitChar y,
   '-', digitChar (mo / 10), digitChar mo, '-', digitChar (d / 10), digitChar d,
   'T', digitChar (hh / 10), digitChar hh, ':', digitChar (mi / 10), digitChar mi,
   ':', digitChar (ss / 10), digitChar ss, '.',
   digitChar (us / 100000), digitChar (us / 10000), digitChar (us / 1000),
   digitChar (us / 100), digitChar (us / 10), digitChar us, 'Z']

/-- Proleptic-Gregorian civil date (year, month, day) of a day count since
1970-01-01, the conversion `datetime.fromtimestamp(·, tz=utc)` performs. -/
def civilFromDays (z : Nat) : Nat × Nat × Nat :=
  let z' := z + 719468
  let era := z' / 146097
  let doe := z' % 146097
  let yoe := (doe - doe / 1460 + doe / 36524 - doe / 146096) / 365
  let y := yoe + era * 400
  let doy := doe - (365 * yoe + yoe / 4 - yoe / 100)
  let mp := (5 * doy + 2) / 153
  let d := doy - (153 * mp + 2) / 5 + 1
  let m := if mp < 10 then mp + 3 else mp - 9
  (if m ≤ 2 then y + 1 else y, m, d)

/-- Conversion and formatting step of `parse_dotnet_date` (client.py:146-155):
milliseconds → clamp negatives to zero → UTC datetime →
`"%Y-%m-%dT%H:%M:%S.%fZ"`. -/
def formatEpochMs (ms : Int) : String :=
  let msNat : Nat := ms.toNat
  let sec := msNat / 1000
  let usec := (msNat % 1000) * 1000
  let days := sec / 86400
  let sod := sec % 86400
  let ymd := civilFromDays days
  String.mk
    (timestampChars ymd.1 ymd.2.1 ymd.2.2 (sod / 3600) (sod % 3600 / 60)
      (sod % 60) usec)

/-- Strips `pre` off the front of a character list, or fails. -/
def dropLit : List Char → List Char → Option (List Char)
  | [], cs => some cs
  | _ :: _, [] => none
  | p :: ps, c :: cs => if c = p then dropLit ps cs else none

/-- Numeric value of a digit run (most significant first). -/
def digitsToNat (cs : List Char) : Nat :=
  cs.foldl (fun a c => a * 10 + (c.toNat - 48)) 0

/-- The regex match
`re.match(r"\/Date\((-?\d+)([\+\-]\d{4})?\)\/", s)` together with
`int(match.group(1))`: anchored at the start of `s`, literal `/Date(`, an
optional minus and at least one digit (group 1, the milliseconds), an
optional sign-plus-four-digits offset group, the literal `)/`, and arbitrary
trailing text.  Returns the signed millisecond value on a match. -/
def dotnetMatch (s : String) : Option Int :=
  match dropLit "/Date(".data s.data with
  | none => none
  | some rest =>
    let signed : Bool × List Char :=
      match rest with
      | '-' :: r => (true, r)
      | r => (false, r)
    let parts := signed.2.span (fun c => c.isDigit)
    if parts.1.isEmpty then none
    else
      let n : Int := (digitsToNat parts.1 : Int)
      let n := if signed.1 then -n else n
      match parts.2 with
      | ')' :: '/' :: _ => some n
      | c :: d1 :: d2 :: d3 :: d4 :: ')' :: '/' :: _ =>
        if (c = '+' || c = '-') && d1.isDigit && d2.isDigit && d3.isDigit &&
            d4.isDigit then some n
        else none
      | _ => none

/-- `XeroStream.parse_dotnet_date` (client.py:129-158).  Returns `none` where
Python returns `None` (falsy/non-string input, or a non-matching string with
no `"T"`). -/
def XeroStream.parse_dotnet_date (date_str : String) : Option String :=
  if date_str = "" then none
  else
    match dotnetMatch date_str with
    | some ms => some (formatEpochMs (if ms < 0 then 0 else ms))
    | none => if strIn "T" date_str then some date_str else none

example : dotnetMatch "/Date(1419937200000+0000)/" = some 1419937200000 := by decide
example : dotnetMatch "/Date(-125+0000)/" = some (-125) := by decide
example : dotnetMatch "/Date(abc)/" = none := by decide
example : dotnetMatch "T/Date(1)/" = none := by decide
example : dotnetMatch "/Date(5)/tail" = some 5 := by decide

example : XeroStream.parse_dotnet_date "/Date(1419937200000+0000)/"
    = some "2014-12-30T11:00:00.000000Z" := by decide

example : XeroStream.parse_dotnet_date "/Date(-1419937200000+0000)/"
    = some "1970-01-01T00:00:00.000000Z" := by decide

/-! ### Records and `XeroStream.transform_dotnet_dates` (client.py:160-186) -/

/-- JSON-shaped values making up an API record. -/
inductive Val where
  | vstr (s : String)
  | vnum (n : Int)
  | vbool (b : Bool)
  | vnull
  | vobj (fields : List (String × Val))
  | varr (items : List Val)

/-- Lifts the `Option String` result of `parse_dotnet_date` back into a
record value (`None` becomes JSON null). -/
def optToVal : Option String → Val
  | some t => Val.vstr t
  | none => Val.vnull

mutual

/-- `XeroStream.transform_dotnet_dates` (client.py:160-186): a non-dict is
returned unchanged; a dict is rebuilt field by field. -/
def XeroStream.transform_dotnet_dates : Val → Val
  | Val.vobj fields => Val.vobj (transformFields fields)
  | v => v

/-- Field-by-field rebuild of a dict's items (the loop body of
`transform_dotnet_dates`). -/
def transformFields : List (String × Val) → List (String × Val)
  | [] => []
  | (k, v) :: rest => (k, transformValue v) :: transformFields rest

/-- One field value: a string containing `"/Date("` goes through
`parse_dotnet_date`; a dict recurses; a list maps dict items through the
recursion and keeps every other item; anything else is copied. -/
def transformValue : Val → Val
  | Val.vstr s =>
    if strIn "/Date(" s then optToVal (XeroStream.parse_dotnet_date s)
    else Val.vstr s
  | Val.vobj fields => Val.vobj (transformFields fields)
  | Val.varr items => Val.varr (transformItems items)
  | v => v

/-- The list comprehension inside `transform_dotnet_dates`: dict items are
transformed, all other items pass through. -/
def transformItems : List Val → List Val
  | [] => []
  | Val.vobj fields :: rest => Val.vobj (transformFields fields) :: transformItems rest
  | item :: rest => item :: transformItems rest

end

example : XeroStream.transform_dotnet_dates
    (Val.vobj [("UpdatedDateUTC", Val.vstr "/Date(1419937200000+0000)/"),
               ("Name", Val.vstr "Acme:Ltd"),
               ("Lines", Val.varr [Val.vobj [("Date", Val.vstr "/Date(0)/")],
                                   Val.vstr "/Date(7)/"])])
    = Val.vobj [("UpdatedDateUTC", Val.vstr "2014-12-30T11:00:00.000000Z"),
                ("Name", Val.vstr "Acme:Ltd"),
                ("Lines", Val.varr [Val.vobj [("Date", Val.vstr "1970-01-01T00:00:00.000000Z")],
                                    Val.vstr "/Date(7)/"])] := by rfl

/-! ## PaginationStrategy (`tap_xero/streams.py`) -/

/-- Python truthiness of an optional integer (`if next_page_token:`,
`previous_token or 1`): `None` and `0` are falsy. -/
def truthyOptInt : Option Int → Bool
  | none => false
  | some n => n ≠ 0

/-- `PaginatedStream.page_size` (streams.py:14). -/
def PaginatedStream.page_size : Nat := 100

/-- `PaginatedStream.records_jsonpath` (streams.py:84-93):
`self.name.replace("_", "")` followed by `"[*]"`. -/
def PaginatedStream.records_jsonpath (name : String) : String :=
  String.mk (name.data.filter (fun c => c ≠ '_')) ++ "[*]"

/-- Python's `str.split(".")`: splits at every dot, keeping empty pieces. -/
def splitDotAux : List Char → List Char → List String
  | [], acc => [String.mk acc.reverse]
  | '.' :: rest, acc => String.mk acc.reverse :: splitDotAux rest []
  | c :: rest, acc => splitDotAux rest (c :: acc)

/-- `s.split(".")` on a string value. -/
def splitDot (s : String) : List String :=
  splitDotAux s.data []

/-- Record extraction step of `PaginatedStream.get_next_page_token`
(streams.py:72-75): the response body `data` is the decoded JSON object, and
the records are looked up under `self.records_jsonpath.split(".")[0]` (note:
the `[*]` suffix survives the split, so the lookup key is e.g.
`"contacts[*]"`), defaulting to `[]`. -/
def PaginatedStream.extracted_records (name : String)
    (data : List (String × List Val)) : List Val :=
  let key := (splitDot (PaginatedStream.records_jsonpath name)).headD ""
  (data.lookup key).getD []

/-- `PaginatedStream.get_next_page_token` (streams.py:60-82): a full page of
extracted records (`len(records) >= page_size`) yields
`(previous_token or 1) + 1`, otherwise `None`. -/
def PaginatedStream.get_next_page_token (name : String)
    (data : List (String × List Val)) (previousToken : Option Int) :
    Option Int :=
  let records := PaginatedStream.extracted_records name data
  if records.length ≥ PaginatedStream.page_size then
    some ((match previousToken with
           | some p => if p ≠ 0 then p else 1
           | none => 1) + 1)
  else none

/-- Percent-encoding of `":"` as done by
`starting_timestamp.replace(":", "%3A")` (streams.py:41,133): every colon
becomes `%3A`, all other characters are kept. -/
def percentEncodeColons (s : String) : String :=
  String.mk (s.data.map (fun c => if c = ':' then ['%', '3', 'A'] else [c])).flatten

/-- `BookmarkedStream.get_url_params` (streams.py:116-135): when the starting
replication-key value is truthy, the only parameter is the `where` filter
`<replication_key>>DateTime(<encoded bookmark>)`; otherwise no parameters. -/
def BookmarkedStream.get_url_params (replicationKey : String)
    (startingTimestamp : Option String) : List (String × String) :=
  match startingTimestamp with
  | some ts =>
    if ts ≠ "" then
      [("where", replicationKey ++ ">DateTime(" ++ percentEncodeColons ts ++ ")")]
    else []
  | none => []

/-- Modelled from the spec: `BookmarkedStream` defines no
`get_next_page_token` override in streams.py, inheriting the SDK default
single-page behaviour; spec §4.4 states the Bookmarked variant is "always
Done after one request (single page, no pagination)", so the next page token
is `None` for every response. -/
def BookmarkedStream.get_next_page_token (_responseRecords : List Val)
    (_previousToken : Option Int) : Option Int :=
  none

/-- A journal record as `JournalsStream.get_next_page_token` reads it: only
its (possibly absent) `JournalNumber` field matters. -/
structure Journal where
  journalNumber : Option Int
  deriving Repr, DecidableEq

/-- `JournalsStream.get_url_params` (streams.py:552-573): the starting
replication-key value (bookmark), when truthy, wins over the next page
token; otherwise a truthy next page token is sent; otherwise no `offset`. -/
def JournalsStream.get_url_params (startingJournalNumber nextPageToken : Option Int) :
    List (String × Int) :=
  if truthyOptInt startingJournalNumber then
    [("offset", startingJournalNumber.getD 0)]
  else if truthyOptInt nextPageToken then
    [("offset", nextPageToken.getD 0)]
  else []

/-- `JournalsStream.get_next_page_token` (streams.py:575-595): for a
non-empty `Journals` array, `max(j.get("JournalNumber", 0) for j in journals)`;
for an empty array, `None`. -/
def JournalsStream.get_next_page_token (journals : List Journal) : Option Int :=
  match journals with
  | [] => none
  | j :: rest =>
    some ((rest.map (fun x => x.journalNumber.getD 0)).foldl max
      (j.journalNumber.getD 0))

example : PaginatedStream.records_jsonpath "bank_transactions" = "banktransactions[*]" := by decide
example : PaginatedStream.get_next_page_token "contacts"
    [("contacts[*]", List.replicate 100 Val.vnull)] none = some 2 := by rfl
example : PaginatedStream.get_next_page_token "contacts"
    [("contacts[*]", List.replicate 37 Val.vnull)] (some 4) = none := by rfl
example : JournalsStream.get_next_page_token
    [⟨some 5⟩, ⟨some 9⟩, ⟨some 3⟩] = some 9 := by decide
example : JournalsStream.get_url_params (some 5) (some 9) = [("offset", 5)] := by decide
example : BookmarkedStream.get_url_params "UpdatedDateUTC" (some "2024-01-02T03:04:05Z")
    = [("where", "UpdatedDateUTC>DateTime(2024-01-02T03%3A04%3A05Z)")] := by decide

example : XeroOAuth2Authenticator.oauth_request_body
    (XeroOAuth2Authenticator.update_access_token
      (XeroOAuth2Authenticator.init "orig") ⟨"tok1", some "rotated"⟩)
    = [("grant_type", "refresh_token"), ("refresh_token", "orig")] := rfl

example : XeroStream.validate_response 429 (some "5") (RespBody.rawBody "") =
    ApiOutcome.xeroRateLimitError "Rate limit exceeded (429). Retry-After: 5" := rfl

example : (XeroStream.validate_response 404 none
    (RespBody.jsonBody [("Message", "Not found")])).kind = Kind.fatal := rfl

example : strIn "Not found" "Client error 404: Not found" = true := by decide

/-! ## Spec-side definitions for the DateNormalizer claims -/

/-- Written from the spec's words: a fixed-format UTC timestamp string
`YYYY-MM-DDTHH:MM:SS.ffffffZ` (ISO-8601-like, microsecond precision,
literal `Z` suffix). -/
def isTimestampFormat (s : String) : Bool :=
  match s.data with
  | [y1, y2, y3, y4, p1, mo1, mo2, p2, d1, d2, tt, hh1, hh2, p3, mi1, mi2,
     p4, s1, s2, p5, u1, u2, u3, u4, u5, u6, p6] =>
    y1.isDigit && y2.isDigit && y3.isDigit && y4.isDigit && (p1 == '-') &&
    mo1.isDigit && mo2.isDigit && (p2 == '-') && d1.isDigit && d2.isDigit &&
    (tt == 'T') && hh1.isDigit && hh2.isDigit && (p3 == ':') &&
    mi1.isDigit && mi2.isDigit && (p4 == ':') && s1.isDigit && s2.isDigit &&
    (p5 == '.') && u1.isDigit && u2.isDigit && u3.isDigit && u4.isDigit &&
    u5.isDigit && u6.isDigit && (p6 == 'Z')
  | _ => false

/-- Supported millisecond range of the embedding: Python's
`datetime.fromtimestamp` raises for timestamps past year 9999 (seconds
beyond 253402300799), a failure mode outside this integer model, so the
general DateNormalizer theorems are stated for values below
253402300800000 ms. -/
def msInRange (ms : Int) : Bool :=
  ms < 253402300800000

/-- A date-shaped string is in range when it either does not parse or its
millisecond value is supported. -/
def msStrInRange (s : String) : Bool :=
  match dotnetMatch s with
  | some ms => msInRange ms
  | none => true

mutual

/-- Every string the normalizer will parse inside a record carries a
supported millisecond value (top level; non-dicts are never parsed). -/
def inRangeVal : Val → Bool
  | Val.vobj fields => inRangeFields fields
  | _ => true

/-- Range check over a dict's fields. -/
def inRangeFields : List (String × Val) → Bool
  | [] => true
  | (_, v) :: rest => inRangeValue v && inRangeFields rest

/-- Range check of one field value, mirroring the traversal of
`transform_dotnet_dates`: only strings containing `"/Date("` are ever
parsed; dicts and dicts inside lists are recursed into. -/
def inRangeValue : Val → Bool
  | Val.vstr s => !(strIn "/Date(" s) || msStrInRange s
  | Val.vobj fields => inRangeFields fields
  | Val.varr items => inRangeItems items
  | _ => true

/-- Range check over a list's items (only dict items are recursed into). -/
def inRangeItems : List Val → Bool
  | [] => true
  | Val.vobj fields :: rest => inRangeFields fields && inRangeItems rest
  | _ :: rest => inRangeItems rest

end

/-- Written from the (amended) spec's words — what happens to one string
field: a value matching the epoch pattern at its start becomes a
fixed-format UTC string with no residual `"/Date("`; a value not containing
`"/Date("` is byte-identical; a value containing `"/Date("` without a match
passes through unchanged when it contains `"T"` and becomes null otherwise. -/
def NormSpecStr (s : String) (w : Val) : Prop :=
  if (dotnetMatch s).isSome then
    ∃ t, w = Val.vstr t ∧ isTimestampFormat t = true ∧ strIn "/Date(" t = false
  else if strIn "/Date(" s then
    w = (if strIn "T" s then Val.vstr s else Val.vnull)
  else
    w = Val.vstr s

mutual

/-- Written from the (amended) spec's words — top level: a dict is rebuilt
with the same keys in order and each field value normalized; a non-dict
record is unchanged. -/
def NormSpecVal : Val → Val → Prop
  | Val.vobj fields, w => ∃ fields', w = Val.vobj fields' ∧ NormSpecFields fields fields'
  | v, w => w = v

/-- Field lists correspond pointwise, keys preserved in order. -/
def NormSpecFields : List (String × Val) → List (String × Val) → Prop
  | [], out => out = []
  | (k, v) :: rest, out =>
    ∃ w out', out = (k, w) :: out' ∧ NormSpecValue v w ∧ NormSpecFields rest out'

/-- One field value: strings per `NormSpecStr`, dicts and arrays recursively
(array items that are not dicts are unchanged), all other values unchanged. -/
def NormSpecValue : Val → Val → Prop
  | Val.vstr s, w => NormSpecStr s w
  | Val.vobj fields, w => ∃ fields', w = Val.vobj fields' ∧ NormSpecFields fields fields'
  | Val.varr items, w => ∃ items', w = Val.varr items' ∧ NormSpecItems items items'
  | v, w => w = v

/-- Array items correspond pointwise: dict items are normalized, any other
item is unchanged. -/
def NormSpecItems : List Val → List Val → Prop
  | [], out => out = []
  | Val.vobj fields :: rest, out =>
    ∃ w out', out = w :: out' ∧
      (∃ fields', w = Val.vobj fields' ∧ NormSpecFields fields fields') ∧
      NormSpecItems rest out'
  | item :: rest, out => ∃ out', out = item :: out' ∧ NormSpecItems rest out'

end

/-! ## Helper lemmas -/

theorem listStartsWith_self (l : List Char) : listStartsWith l l = true := by
  induction l with
  | nil => rfl
  | cons c cs ih => simp [listStartsWith, ih]

theorem listHasSub_append (n pre : List Char) : listHasSub n (pre ++ n) = true := by
  induction pre with
  | nil =>
    cases n with
    | nil => rfl
    | cons c cs => simp [listHasSub, listStartsWith_self]
  | cons c cs ih => simp [listHasSub, ih]

theorem strIn_of_data_append (t h : String) (pre : List Char)
    (hd : h.data = pre ++ t.data) : strIn t h = true := by
  show listHasSub t.data h.data = true
  rw [hd]
  exact listHasSub_append t.data pre

theorem digitChar_isDigit (n : Nat) : (digitChar n).isDigit = true := by
  unfold digitChar
  have h : n % 10 < 10 := Nat.mod_lt _ (by decide)
  set m := n % 10 with hm
  interval_cases m <;> decide

theorem digitChar_mem (n : Nat) :
    digitChar n ∈ ['0', '1', '2', '3', '4', '5', '6', '7', '8', '9'] := by
  unfold digitChar
  have h : n % 10 < 10 := Nat.mod_lt _ (by decide)
  set m := n % 10 with hm
  interval_cases m <;> decide

theorem okTimestampChar_timestampChars (y mo d hh mi ss us : Nat) :
    ∀ c ∈ timestampChars y mo d hh mi ss us,
      c.isDigit = true ∨ c ∈ ['-', 'T', ':', '.', 'Z'] := by
  intro c hc
  simp only [timestampChars, List.mem_cons, List.not_mem_nil, or_false] at hc
  rcases hc with h|h|h|h|h|h|h|h|h|h|h|h|h|h|h|h|h|h|h|h|h|h|h|h|h|h|h <;>
    subst h <;>
    first
      | exact Or.inl (digitChar_isDigit _)
      | (right; simp)

theorem isTimestampFormat_formatEpochMs (ms : Int) :
    isTimestampFormat (formatEpochMs ms) = true := by
  unfold formatEpochMs isTimestampFormat timestampChars
  simp [digitChar_isDigit]

theorem formatEpochMs_chars (ms : Int) :
    ∀ c ∈ (formatEpochMs ms).data,
      c.isDigit = true ∨ c ∈ ['-', 'T', ':', '.', 'Z'] := by
  intro c hc
  exact okTimestampChar_timestampChars _ _ _ _ _ _ _ c hc

theorem tee_mem_formatEpochMs (ms : Int) : 'T' ∈ (formatEpochMs ms).data := by
  show 'T' ∈ timestampChars _ _ _ _ _ _ _
  simp [timestampChars]

theorem slash_not_mem_formatEpochMs (ms : Int) : '/' ∉ (formatEpochMs ms).data := by
  intro h
  rcases formatEpochMs_chars ms '/' h with h1 | h1
  · exact absurd h1 (by decide)
  · exact absurd h1 (by decide)

theorem listStartsWith_mem (n : List Char) (c : Char) (hc : c ∈ n) :
    ∀ hay, listStartsWith n hay = true → c ∈ hay := by
  induction n with
  | nil => cases hc
  | cons a as ih =>
    intro hay h
    cases hay with
    | nil => simp [listStartsWith] at h
    | cons b bs =>
      simp only [listStartsWith, Bool.and_eq_true, decide_eq_true_eq] at h
      rcases List.mem_cons.mp hc with h1 | h1
      · subst h1
        exact List.mem_cons.mpr (Or.inl h.1)
      · exact List.mem_cons.mpr (Or.inr (ih h1 bs h.2))

theorem listHasSub_mem (n : List Char) (c : Char) (hc : c ∈ n) :
    ∀ hay, listHasSub n hay = true → c ∈ hay := by
  intro hay
  induction hay with
  | nil =>
    intro h
    cases n with
    | nil => cases hc
    | cons a as => simp [listHasSub, listStartsWith] at h
  | cons b bs ih =>
    intro h
    simp only [listHasSub, Bool.or_eq_true] at h
    rcases h with h | h
    · exact listStartsWith_mem n c hc (b :: bs) h
    · exact List.mem_cons.mpr (Or.inr (ih h))

theorem strIn_eq_false_of_not_mem (needle hay : String) (c : Char)
    (hc : c ∈ needle.data) (h : c ∉ hay.data) : strIn needle hay = false := by
  cases hsub : strIn needle hay
  · rfl
  · exact absurd (listHasSub_mem needle.data c hc hay.data hsub) h

theorem listHasSub_singleton (c : Char) (hay : List Char) (h : c ∈ hay) :
    listHasSub [c] hay = true := by
  induction hay with
  | nil => cases h
  | cons b bs ih =>
    simp only [listHasSub, listStartsWith, Bool.or_eq_true]
    rcases List.mem_cons.mp h with h1 | h1
    · left
      simp [h1]
    · right
      exact ih h1

theorem listStartsWith_append_self (n rest : List Char) :
    listStartsWith n (n ++ rest) = true := by
  induction n with
  | nil => rfl
  | cons a as ih => simp [listStartsWith, ih]

theorem listHasSub_self_append (n rest : List Char) :
    listHasSub n (n ++ rest) = true := by
  cases n with
  | nil =>
    cases rest with
    | nil => rfl
    | cons c cs => simp [listHasSub, listStartsWith]
  | cons a as =>
    show listHasSub (a :: as) (a :: (as ++ rest)) = true
    simp only [listHasSub, Bool.or_eq_true]
    left
    exact listStartsWith_append_self (a :: as) rest

theorem dropLit_some (p : List Char) :
    ∀ l r, dropLit p l = some r → l = p ++ r := by
  induction p with
  | nil =>
    intro l r h
    injection h
  | cons a as ih =>
    intro l r h
    cases l with
    | nil => cases h
    | cons b bs =>
      simp only [dropLit] at h
      by_cases hb : b = a
      · rw [if_pos hb] at h
        rw [hb, List.cons_append, ih bs r h]
      · rw [if_neg hb] at h
        cases h

theorem dotnetMatch_starts (s : String) (ms : Int) (h : dotnetMatch s = some ms) :
    ∃ rest, s.data = "/Date(".data ++ rest := by
  unfold dotnetMatch at h
  rcases hd : dropLit "/Date(".data s.data with _ | rest
  · rw [hd] at h
    cases h
  · exact ⟨rest, dropLit_some _ _ _ hd⟩

theorem strIn_date_of_dotnetMatch (s : String) (ms : Int)
    (h : dotnetMatch s = some ms) : strIn "/Date(" s = true := by
  obtain ⟨rest, hr⟩ := dotnetMatch_starts s ms h
  show listHasSub "/Date(".data s.data = true
  rw [hr]
  exact listHasSub_self_append _ _

theorem ne_empty_of_dotnetMatch (s : String) (ms : Int)
    (h : dotnetMatch s = some ms) : s ≠ "" := by
  intro he
  subst he
  rw [show dotnetMatch "" = none from rfl] at h
  cases h

theorem strIn_date_formatEpochMs (ms : Int) :
    strIn "/Date(" (formatEpochMs ms) = false :=
  strIn_eq_false_of_not_mem _ _ '/' (by decide) (slash_not_mem_formatEpochMs ms)

theorem strIn_tee_formatEpochMs (ms : Int) :
    strIn "T" (formatEpochMs ms) = true :=
  listHasSub_singleton 'T' _ (tee_mem_formatEpochMs ms)

theorem le_foldlMax (l : List Int) (a : Int) : a ≤ l.foldl max a := by
  induction l generalizing a with
  | nil => exact le_refl a
  | cons b t ih => exact le_trans (le_max_left a b) (ih (max a b))

theorem foldlMax_mem (l : List Int) (a : Int) : l.foldl max a ∈ a :: l := by
  induction l generalizing a with
  | nil => simp
  | cons b t ih =>
    rw [List.foldl_cons]
    rcases List.mem_cons.mp (ih (max a b)) with h | h
    · rcases max_choice a b with h2 | h2
      · exact List.mem_cons.mpr (Or.inl (h.trans h2))
      · exact List.mem_cons.mpr (Or.inr (List.mem_cons.mpr (Or.inl (h.trans h2))))
    · exact List.mem_cons.mpr (Or.inr (List.mem_cons.mpr (Or.inr h)))

theorem foldlMax_ge (l : List Int) (a x : Int) (hx : x ∈ a :: l) :
    x ≤ l.foldl max a := by
  induction l generalizing a with
  | nil =>
    simp only [List.mem_singleton] at hx
    simp [hx]
  | cons b t ih =>
    rw [List.foldl_cons]
    rcases List.mem_cons.mp hx with h | h
    · subst h
      exact le_trans (le_max_left _ b) (le_foldlMax t _)
    · rcases List.mem_cons.mp h with h1 | h1
      · subst h1
        exact le_trans (le_max_right a _) (le_foldlMax t _)
      · exact ih (max a b) (List.mem_cons.mpr (Or.inr h1))

theorem transformValue_str_match (s : String) (ms : Int)
    (hm : dotnetMatch s = some ms) :
    transformValue (Val.vstr s)
      = Val.vstr (formatEpochMs (if ms < 0 then 0 else ms)) := by
  have hsub : strIn "/Date(" s = true := strIn_date_of_dotnetMatch s ms hm
  have hne : s ≠ "" := ne_empty_of_dotnetMatch s ms hm
  unfold transformValue XeroStream.parse_dotnet_date
  rw [if_pos hsub, if_neg hne, hm]
  rfl

theorem transformValue_str_nomatch_tee (s : String)
    (hm : dotnetMatch s = none) (hsub : strIn "/Date(" s = true)
    (ht : strIn "T" s = true) :
    transformValue (Val.vstr s) = Val.vstr s := by
  have hne : s ≠ "" := by
    intro he
    subst he
    exact absurd hsub (by decide)
  unfold transformValue XeroStream.parse_dotnet_date
  rw [if_pos hsub, if_neg hne, hm, if_pos ht]
  rfl

theorem transformValue_str_nomatch_notee (s : String)
    (hm : dotnetMatch s = none) (hsub : strIn "/Date(" s = true)
    (ht : strIn "T" s = false) :
    transformValue (Val.vstr s) = Val.vnull := by
  have hne : s ≠ "" := by
    intro he
    subst he
    exact absurd hsub (by decide)
  unfold transformValue XeroStream.parse_dotnet_date
  rw [if_pos hsub, if_neg hne, hm, if_neg (by simp [ht])]
  rfl

theorem transformValue_str_nosub (s : String)
    (hsub : strIn "/Date(" s = false) :
    transformValue (Val.vstr s) = Val.vstr s := by
  unfold transformValue
  rw [if_neg (by simp [hsub])]

theorem normSpecStr_transform (s : String) :
    NormSpecStr s (transformValue (Val.vstr s)) := by
  unfold NormSpecStr
  rcases hm : dotnetMatch s with _ | ms
  · simp only [hm, Option.isSome_none, Bool.false_eq_true, if_false]
    by_cases hsub : strIn "/Date(" s = true
    · rw [if_pos hsub]
      by_cases ht : strIn "T" s = true
      · rw [if_pos ht]
        exact transformValue_str_nomatch_tee s hm hsub ht
      · rw [if_neg ht]
        exact transformValue_str_nomatch_notee s hm hsub
          (Bool.not_eq_true _ ▸ ht)
    · rw [if_neg hsub]
      exact transformValue_str_nosub s (Bool.not_eq_true _ ▸ hsub)
  · simp only [hm, Option.isSome_some, if_true]
    exact ⟨formatEpochMs (if ms < 0 then 0 else ms),
      transformValue_str_match s ms hm,
      isTimestampFormat_formatEpochMs _, strIn_date_formatEpochMs _⟩

mutual

theorem normSpecFields_transform :
    ∀ fs : List (String × Val), NormSpecFields fs (transformFields fs)
  | [] => rfl
  | (k, v) :: rest =>
    ⟨transformValue v, transformFields rest, rfl, normSpecValue_transform v,
     normSpecFields_transform rest⟩

theorem normSpecValue_transform : ∀ v : Val, NormSpecValue v (transformValue v)
  | Val.vstr s => normSpecStr_transform s
  | Val.vobj fields =>
    ⟨transformFields fields, rfl, normSpecFields_transform fields⟩
  | Val.varr items =>
    ⟨transformItems items, rfl, normSpecItems_transform items⟩
  | Val.vnum _ => rfl
  | Val.vbool _ => rfl
  | Val.vnull => rfl

theorem normSpecItems_transform :
    ∀ items : List Val, NormSpecItems items (transformItems items)
  | [] => rfl
  | Val.vobj fields :: rest =>
    ⟨Val.vobj (transformFields fields), transformItems rest, rfl,
     ⟨transformFields fields, rfl, normSpecFields_transform fields⟩,
     normSpecItems_transform rest⟩
  | Val.vstr _ :: rest => ⟨transformItems rest, rfl, normSpecItems_transform rest⟩
  | Val.vnum _ :: rest => ⟨transformItems rest, rfl, normSpecItems_transform rest⟩
  | Val.vbool _ :: rest => ⟨transformItems rest, rfl, normSpecItems_transform rest⟩
  | Val.vnull :: rest => ⟨transformItems rest, rfl, normSpecItems_transform rest⟩
  | Val.varr its :: rest => ⟨transformItems rest, rfl, normSpecItems_transform rest⟩

end

mutual

theorem transformFields_idem :
    ∀ fs : List (String × Val), transformFields (transformFields fs) = transformFields fs
  | [] => rfl
  | (k, v) :: rest => by
    show (k, transformValue (transformValue v)) :: transformFields (transformFields rest)
        = (k, transformValue v) :: transformFields rest
    rw [transformValue_idem v, transformFields_idem rest]

theorem transformValue_idem :
    ∀ v : Val, transformValue (transformValue v) = transformValue v
  | Val.vstr s => by
    by_cases hsub : strIn "/Date(" s = true
    · rcases hm : dotnetMatch s with _ | ms
      · by_cases ht : strIn "T" s = true
        · rw [transformValue_str_nomatch_tee s hm hsub ht,
            transformValue_str_nomatch_tee s hm hsub ht]
        · rw [transformValue_str_nomatch_notee s hm hsub (Bool.not_eq_true _ ▸ ht)]
          rfl
      · rw [transformValue_str_match s ms hm]
        exact transformValue_str_nosub _ (strIn_date_formatEpochMs _)
    · rw [transformValue_str_nosub s (Bool.not_eq_true _ ▸ hsub),
        transformValue_str_nosub s (Bool.not_eq_true _ ▸ hsub)]
  | Val.vobj fields => by
    show Val.vobj (transformFields (transformFields fields)) = Val.vobj (transformFields fields)
    rw [transformFields_idem fields]
  | Val.varr items => by
    show Val.varr (transformItems (transformItems items)) = Val.varr (transformItems items)
    rw [transformItems_idem items]
  | Val.vnum _ => rfl
  | Val.vbool _ => rfl
  | Val.vnull => rfl

theorem transformItems_idem :
    ∀ items : List Val, transformItems (transformItems items) = transformItems items
  | [] => rfl
  | Val.vobj fields :: rest => by
    show Val.vobj (transformFields (transformFields fields))
          :: transformItems (transformItems rest)
        = Val.vobj (transformFields fields) :: transformItems rest
    rw [transformFields_idem fields, transformItems_idem rest]
  | Val.vstr s :: rest => by
    show Val.vstr s :: transformItems (transformItems rest)
        = Val.vstr s :: transformItems rest
    rw [transformItems_idem rest]
  | Val.vnum n :: rest => by
    show Val.vnum n :: transformItems (transformItems rest)
        = Val.vnum n :: transformItems rest
    rw [transformItems_idem rest]
  | Val.vbool b :: rest => by
    show Val.vbool b :: transformItems (transformItems rest)
        = Val.vbool b :: transformItems rest
    rw [transformItems_idem rest]
  | Val.vnull :: rest => by
    show Val.vnull :: transformItems (transformItems rest)
        = Val.vnull :: transformItems rest
    rw [transformItems_idem rest]
  | Val.varr its :: rest => by
    show Val.varr its :: transformItems (transformItems rest)
        = Val.varr its :: transformItems rest
    rw [transformItems_idem rest]

end

/-! ## Claim theorems -/

/-- C1: the spec requires the rotated refresh token from a successful direct
refresh to be used by every subsequent refresh; the code keeps sending the
constructor's refresh token.  Evaluating the model at the failing input: an
authenticator constructed with `"original-token"` performs a refresh whose
provider response carries the rotated token `"rotated-token"`, and the next
refresh request body still carries `"original-token"`. -/
theorem C1_next_refresh_body_keeps_original_token :
    XeroOAuth2Authenticator.oauth_request_body
      (XeroOAuth2Authenticator.update_access_token
        (XeroOAuth2Authenticator.init "original-token")
        { access_token := "access-1", refresh_token := some "rotated-token" })
      = [("grant_type", "refresh_token"), ("refresh_token", "original-token")] := by
  decide

/-- C2: the claim says that once a page has been fetched the cursor advanced
from it (the max `JournalNumber` seen) determines the `offset` sent; the
code's `if starting_journal_number: ... elif next_page_token:` gives the
persisted bookmark precedence instead.  At the failing input — bookmark `5`,
cursor `9` from the previous page — the request carries `offset=5`; the
cursor is only used when the bookmark is absent. -/
theorem C2_offset_prefers_bookmark_over_cursor :
    JournalsStream.get_url_params (some 5) (some 9) = [("offset", 5)]
    ∧ JournalsStream.get_url_params none (some 9) = [("offset", 9)] := by
  decide

/-- C3: for the journals stream, a non-empty page yields the maximum
`JournalNumber` value among the page's records (missing fields counting as
`0`, per `j.get("JournalNumber", 0)`) as the next cursor, and an empty page
yields `None`, completing the sync. -/
theorem C3_journals_next_cursor_is_page_max (js : List Journal) :
    (js ≠ [] → ∃ m, JournalsStream.get_next_page_token js = some m ∧
        m ∈ js.map (fun j => j.journalNumber.getD 0) ∧
        ∀ x ∈ js.map (fun j => j.journalNumber.getD 0), x ≤ m) ∧
    (js = [] → JournalsStream.get_next_page_token js = none) := by
  constructor
  · intro hne
    match js with
    | [] => exact absurd rfl hne
    | j :: rest =>
      refine ⟨_, rfl, ?_, ?_⟩
      · simpa using foldlMax_mem (rest.map (fun x => x.journalNumber.getD 0))
          (j.journalNumber.getD 0)
      · intro x hx
        apply foldlMax_ge
        simpa using hx
  · intro h
    subst h
    rfl

/-- C3 witness: on the page with sequence values `[5, 9, 3]` the theorem
yields the cursor `9`, and on the empty page it yields `None`. -/
theorem C3_journals_next_cursor_is_page_max_witness :
    JournalsStream.get_next_page_token [⟨some 5⟩, ⟨some 9⟩, ⟨some 3⟩] = some 9
    ∧ JournalsStream.get_next_page_token [] = none := by
  obtain ⟨m, hm, hmem, hub⟩ :=
    (C3_journals_next_cursor_is_page_max [⟨some 5⟩, ⟨some 9⟩, ⟨some 3⟩]).1 (by decide)
  have hle : m ≤ 9 := by
    have hmem' : m = 5 ∨ m = 9 ∨ m = 3 := by simpa using hmem
    rcases hmem' with h | h | h <;> omega
  have hge : (9 : Int) ≤ m := hub 9 (by simp)
  have h9 : m = 9 := le_antisymm hle hge
  exact ⟨h9 ▸ hm, (C3_journals_next_cursor_is_page_max []).2 rfl⟩

/-- C4 counterexample: a `429` response whose `Retry-After` header is present
but empty is classified fatal (the daily-quota branch), because the code's
walrus test treats the empty header value as absent — refuting "429 with a
Retry-After header yields a retryable error" as stated. -/
theorem C4_429_empty_retry_after_is_fatal :
    (XeroStream.validate_response 429 (some "") (RespBody.rawBody "{}")).kind = Kind.fatal
    ∧ Kind.fatal ≠ Kind.retryable := by
  decide

/-- C4 (amended: a 429 whose `Retry-After` header is absent *or carries an
empty value* is fatal; with a non-empty value it is retryable): response
classification is the pure ordered mapping of the spec — 429/non-empty
Retry-After retryable, 429 otherwise fatal, 503 retryable, other ≥500
retryable, 401 retryable, other ≥400 fatal with a message containing the
JSON `Message` field when decodable (else the raw body text), everything
else success. -/
theorem C4_validate_response_classification (status : Nat)
    (retryAfter : Option String) (body : RespBody) :
    (XeroStream.validate_response status retryAfter body).kind = classifySpec status retryAfter
    ∧ (400 ≤ status → status < 500 → status ≠ 401 → status ≠ 429 →
        ∃ m, XeroStream.validate_response status retryAfter body = ApiOutcome.xeroAPIError m ∧
          (∀ fields txt, body = RespBody.jsonBody fields →
            fields.lookup "Message" = some txt → strIn txt m = true) ∧
          (∀ t, body = RespBody.rawBody t → strIn t m = true)) := by
  constructor
  · unfold XeroStream.validate_response classifySpec
    rcases retryAfter with _ | ra <;> dsimp only <;> split_ifs <;>
      simp [ApiOutcome.kind]
  · intro h1 h2 h3 h4
    have hn503 : ¬ status = 503 := by omega
    have hn500 : ¬ status ≥ 500 := by omega
    unfold XeroStream.validate_response
    rw [if_neg h4, if_neg hn503, if_neg hn500, if_neg h3, if_pos h1]
    rcases body with fields | t
    · rcases hL : fields.lookup "Message" with _ | txt
      · refine ⟨_, rfl, ?_, ?_⟩
        · intro fields' txt' hf hlook
          injection hf with hf
          subst hf
          rw [hL] at hlook
          cases hlook
        · intro t' ht
          simp at ht
      · refine ⟨_, rfl, ?_, ?_⟩
        · intro fields' txt' hf hlook
          injection hf with hf
          subst hf
          rw [hL] at hlook
          injection hlook with hlook
          subst hlook
          simp only [hL]
          apply strIn_of_data_append _ _ ("Client error " ++ toString status ++ ": ").data
          simp [List.append_assoc]
        · intro t' ht
          simp at ht
    · refine ⟨_, rfl, ?_, ?_⟩
      · intro fields' txt' hf hlook
        simp at hf
      · intro t' ht
        injection ht with ht
        subst ht
        apply strIn_of_data_append _ _ ("Client error " ++ toString status ++ ": ").data
        simp [List.append_assoc]

/-- C4 witness: applying the classification theorem at the concrete input
`(404, no Retry-After, JSON body {"Message": "Not found"})` discharges its
hypotheses and yields the fatal outcome whose message contains `"Not found"`. -/
theorem C4_validate_response_classification_witness :
    XeroStream.validate_response 404 none (RespBody.jsonBody [("Message", "Not found")])
      = ApiOutcome.xeroAPIError "Client error 404: Not found"
    ∧ strIn "Not found" "Client error 404: Not found" = true := by
  obtain ⟨m, hm, hj, -⟩ :=
    (C4_validate_response_classification 404 none
      (RespBody.jsonBody [("Message", "Not found")])).2
      (by decide) (by decide) (by decide) (by decide)
  have h1 : XeroStream.validate_response 404 none
      (RespBody.jsonBody [("Message", "Not found")])
      = ApiOutcome.xeroAPIError "Client error 404: Not found" := by decide
  have hmeq : m = "Client error 404: Not found" := by
    injection hm.symm.trans h1
  exact ⟨h1, hmeq ▸ hj [("Message", "Not found")] "Not found" rfl rfl⟩

/-- C5: for every Paginated stream, a page whose extracted record count
reaches the fixed page size 100 advances the cursor to the previous cursor
plus one (`2` when the previous cursor is `None`; note `previous_token or 1`
also maps a zero cursor — which the pagination never produces — to `1`), and
a page with fewer than 100 extracted records ends pagination with `None`. -/
theorem C5_paginated_next_page_token (name : String)
    (data : List (String × List Val)) (prev : Option Int) :
    (100 ≤ (PaginatedStream.extracted_records name data).length →
      (prev = none → PaginatedStream.get_next_page_token name data prev = some 2) ∧
      (∀ p, prev = some p → p ≠ 0 →
        PaginatedStream.get_next_page_token name data prev = some (p + 1))) ∧
    ((PaginatedStream.extracted_records name data).length < 100 →
      PaginatedStream.get_next_page_token name data prev = none) := by
  constructor
  · intro hlen
    constructor
    · intro h
      subst h
      simp [PaginatedStream.get_next_page_token, PaginatedStream.page_size, hlen]
    · intro p h hp
      subst h
      simp [PaginatedStream.get_next_page_token, PaginatedStream.page_size, hlen, hp]
  · intro hlen
    have hnot : ¬ 100 ≤ (PaginatedStream.extracted_records name data).length := by omega
    simp [PaginatedStream.get_next_page_token, PaginatedStream.page_size, hnot]

/-- C5 witness: a `contacts` response carrying 100 records under the key the
code looks up advances `None` to `2`, and one carrying 37 records ends
pagination. -/
theorem C5_paginated_next_page_token_witness :
    PaginatedStream.get_next_page_token "contacts"
      [("contacts[*]", List.replicate 100 Val.vnull)] none = some 2
    ∧ PaginatedStream.get_next_page_token "contacts"
      [("contacts[*]", List.replicate 37 Val.vnull)] (some 4) = none :=
  ⟨((C5_paginated_next_page_token "contacts"
      [("contacts[*]", List.replicate 100 Val.vnull)] none).1 (by decide)).1 rfl,
   (C5_paginated_next_page_token "contacts"
      [("contacts[*]", List.replicate 37 Val.vnull)] (some 4)).2 (by decide)⟩

/-- Every colon of the bookmark timestamp is percent-encoded: the encoded
value contains no `':'` at all. -/
theorem colon_not_in_percentEncodeColons (s : String) :
    ':' ∉ (percentEncodeColons s).data := by
  show ':' ∉ (s.data.map (fun c => if c = ':' then ['%', '3', 'A'] else [c])).flatten
  intro h
  rcases List.mem_flatten.mp h with ⟨piece, hp, hc⟩
  rcases List.mem_map.mp hp with ⟨c, -, rfl⟩
  by_cases hc' : c = ':'
  · simp [hc'] at hc
  · simp [hc'] at hc
    exact hc' hc.symm

/-- C9: a Bookmarked stream with a (truthy) bookmark sends no `page`
parameter, sends the filter `<replication_key>>DateTime(<bookmark>)` with
every `':'` of the bookmark encoded as `%3A`, and — the stream inheriting
the SDK's single-page pagination — issues no further request whatever the
response contains. -/
theorem C9_bookmarked_single_filtered_request (rk bm : String) (hbm : bm ≠ "") :
    (BookmarkedStream.get_url_params rk (some bm)).lookup "page" = none
    ∧ (BookmarkedStream.get_url_params rk (some bm)).lookup "where"
        = some (rk ++ ">DateTime(" ++ percentEncodeColons bm ++ ")")
    ∧ ':' ∉ (percentEncodeColons bm).data
    ∧ BookmarkedStream.get_next_page_token [] none = none
    ∧ BookmarkedStream.get_next_page_token (List.replicate 500 Val.vnull) none = none := by
  refine ⟨?_, ?_, colon_not_in_percentEncodeColons bm, rfl, rfl⟩
  · simp [BookmarkedStream.get_url_params, hbm, List.lookup]
  · simp [BookmarkedStream.get_url_params, hbm, List.lookup]

/-- C9 witness: the theorem applied at the bookmark
`"2024-01-02T03:04:05Z"` (and evaluated on its first two conjuncts). -/
theorem C9_bookmarked_single_filtered_request_witness :
    (BookmarkedStream.get_url_params "UpdatedDateUTC" (some "2024-01-02T03:04:05Z")).lookup "page" = none
    ∧ (BookmarkedStream.get_url_params "UpdatedDateUTC" (some "2024-01-02T03:04:05Z")).lookup "where"
        = some "UpdatedDateUTC>DateTime(2024-01-02T03%3A04%3A05Z)" := by
  obtain ⟨h1, h2, -, -, -⟩ :=
    C9_bookmarked_single_filtered_request "UpdatedDateUTC" "2024-01-02T03:04:05Z"
      (by decide)
  exact ⟨h1, h2.trans (by decide)⟩

/-- C6 counterexample: the epoch-encoded string for millisecond value
1419937200000 with offset +0000 normalizes to a timestamp whose wall-clock
time component (characters 11-18) is `11:00:00`, not `09:00:00`
(1419937200000 ms = 1419937200 s past 1970-01-01T00:00:00Z, which is
2014-12-30T11:00:00Z; the docstring's `09:00:00` example the spec copied is
arithmetically wrong). -/
theorem C6_time_component_is_eleven :
    XeroStream.parse_dotnet_date "/Date(1419937200000+0000)/"
      = some "2014-12-30T11:00:00.000000Z"
    ∧ (("2014-12-30T11:00:00.000000Z").data.drop 11).take 8 = "11:00:00".data
    ∧ "11:00:00" ≠ "09:00:00" := by
  refine ⟨by decide, by decide, by decide⟩

/-- C6 (amended: the wall-clock time component is `11:00:00`): normalizing
`"/Date(1419937200000+0000)/"` produces a timestamp string whose UTC
calendar date is 2014-12-30 and whose wall-clock time component is
11:00:00. -/
theorem C6_epoch_example_normalization :
    XeroStream.parse_dotnet_date "/Date(1419937200000+0000)/"
      = some "2014-12-30T11:00:00.000000Z"
    ∧ ("2014-12-30T11:00:00.000000Z").data.take 10 = "2014-12-30".data
    ∧ (("2014-12-30T11:00:00.000000Z").data.drop 11).take 8 = "11:00:00".data := by
  refine ⟨by decide, by decide, by decide⟩

/-- C7 counterexample: on the record
`{"a": "/Date(abc)/", "b": "T/Date(1)/"}` the claim fails twice — the field
`"a"` does not match the epoch pattern (`dotnetMatch` is `none`) yet is not
byte-identical in the output (it becomes null), and the output field `"b"`
still contains the substring `"/Date("`. -/
theorem C7_nonmatching_fields_not_identical :
    XeroStream.transform_dotnet_dates
      (Val.vobj [("a", Val.vstr "/Date(abc)/"), ("b", Val.vstr "T/Date(1)/")])
      = Val.vobj [("a", Val.vnull), ("b", Val.vstr "T/Date(1)/")]
    ∧ dotnetMatch "/Date(abc)/" = none
    ∧ Val.vnull ≠ Val.vstr "/Date(abc)/"
    ∧ dotnetMatch "T/Date(1)/" = none
    ∧ strIn "/Date(" "T/Date(1)/" = true := by
  refine ⟨rfl, by decide, by simp, by decide, by decide⟩

/-- C7 (amended: for records whose parsed date values stay within
`datetime`'s supported range, a string field matching the epoch pattern at
the start of its value — at any nesting depth reachable through objects and
arrays of objects — is replaced by a fixed-format UTC string containing no
`"/Date("`; a string field whose value does not contain the substring
`"/Date("` is byte-identical; a field containing `"/Date("` without a match
passes through unchanged when it contains a `"T"` — possibly retaining
`"/Date("` — and becomes null otherwise; array items that are not objects
pass through unchanged): the normalizer satisfies the field-by-field
normalization relation `NormSpecVal`. -/
theorem C7_transform_normalizes_fields (v : Val) (hr : inRangeVal v = true) :
    NormSpecVal v (XeroStream.transform_dotnet_dates v) := by
  cases v with
  | vobj fields => exact ⟨transformFields fields, rfl, normSpecFields_transform fields⟩
  | vstr s => rfl
  | vnum n => rfl
  | vbool b => rfl
  | vnull => rfl
  | varr items => rfl

/-- C7 witness: the normalization relation holds of a concrete in-range
record with a matching date, a plain string, a nested object and an array of
objects. -/
theorem C7_transform_normalizes_fields_witness :
    inRangeVal (Val.vobj
      [("UpdatedDateUTC", Val.vstr "/Date(1419937200000+0000)/"),
       ("Name", Val.vstr "Acme"),
       ("Contact", Val.vobj [("Note", Val.vstr "T/Date(x)/")]),
       ("Lines", Val.varr [Val.vobj [("Date", Val.vstr "/Date(0)/")]])]) = true
    ∧ NormSpecVal
        (Val.vobj
          [("UpdatedDateUTC", Val.vstr "/Date(1419937200000+0000)/"),
           ("Name", Val.vstr "Acme"),
           ("Contact", Val.vobj [("Note", Val.vstr "T/Date(x)/")]),
           ("Lines", Val.varr [Val.vobj [("Date", Val.vstr "/Date(0)/")]])])
        (XeroStream.transform_dotnet_dates
          (Val.vobj
            [("UpdatedDateUTC", Val.vstr "/Date(1419937200000+0000)/"),
             ("Name", Val.vstr "Acme"),
             ("Contact", Val.vobj [("Note", Val.vstr "T/Date(x)/")]),
             ("Lines", Val.varr [Val.vobj [("Date", Val.vstr "/Date(0)/")]])])) :=
  ⟨by decide,
   C7_transform_normalizes_fields
     (Val.vobj
       [("UpdatedDateUTC", Val.vstr "/Date(1419937200000+0000)/"),
        ("Name", Val.vstr "Acme"),
        ("Contact", Val.vobj [("Note", Val.vstr "T/Date(x)/")]),
        ("Lines", Val.varr [Val.vobj [("Date", Val.vstr "/Date(0)/")]])])
     (by decide)⟩

/-- C8: every epoch-encoded string with a negative millisecond value
normalizes to the output obtained from epoch zero — the literal
`"1970-01-01T00:00:00.000000Z"`, the same string `"/Date(0)/"` produces —
never a negative or malformed timestamp. -/
theorem C8_negative_epoch_clamps_to_epoch_zero (s : String) (ms : Int)
    (hm : dotnetMatch s = some ms) (hneg : ms < 0) :
    XeroStream.parse_dotnet_date s = some "1970-01-01T00:00:00.000000Z"
    ∧ XeroStream.parse_dotnet_date s = XeroStream.parse_dotnet_date "/Date(0)/" := by
  have hne : s ≠ "" := ne_empty_of_dotnetMatch s ms hm
  have h1 : XeroStream.parse_dotnet_date s = some (formatEpochMs 0) := by
    unfold XeroStream.parse_dotnet_date
    rw [if_neg hne, hm]
    simp only [if_pos hneg]
  have h2 : (formatEpochMs 0 : String) = "1970-01-01T00:00:00.000000Z" := by decide
  have h3 : XeroStream.parse_dotnet_date "/Date(0)/" = some (formatEpochMs 0) := by decide
  exact ⟨h2 ▸ h1, h3 ▸ h1⟩

/-- C8 witness: the theorem at the concrete input
`"/Date(-1419937200000+0000)/"` (millisecond value −1419937200000). -/
theorem C8_negative_epoch_clamps_to_epoch_zero_witness :
    XeroStream.parse_dotnet_date "/Date(-1419937200000+0000)/"
      = some "1970-01-01T00:00:00.000000Z"
    ∧ XeroStream.parse_dotnet_date "/Date(-1419937200000+0000)/"
      = XeroStream.parse_dotnet_date "/Date(0)/" :=
  C8_negative_epoch_clamps_to_epoch_zero "/Date(-1419937200000+0000)/"
    (-1419937200000) (by decide) (by decide)

/-- C10: the date normalizer is idempotent on records whose parsed date
values stay within `datetime`'s supported range: applying
`transform_dotnet_dates` twice yields the same record as applying it once
(every produced timestamp string contains a `"T"` and no `"/Date("`
substring, so a second application passes it through unchanged). -/
theorem C10_transform_dotnet_dates_idem (v : Val) (hr : inRangeVal v = true) :
    XeroStream.transform_dotnet_dates (XeroStream.transform_dotnet_dates v)
      = XeroStream.transform_dotnet_dates v := by
  cases v with
  | vobj fields =>
    show Val.vobj (transformFields (transformFields fields)) = Val.vobj (transformFields fields)
    rw [transformFields_idem fields]
  | vstr s => rfl
  | vnum n => rfl
  | vbool b => rfl
  | vnull => rfl
  | varr items => rfl

/-- C10 witness: idempotence at a concrete in-range record exercising a
matching date, a pass-through date-shaped string, and nesting. -/
theorem C10_transform_dotnet_dates_idem_witness :
    inRangeVal (Val.vobj
      [("CreatedDateUTC", Val.vstr "/Date(1419937200000+0000)/"),
       ("Reference", Val.vstr "no date here"),
       ("JournalLines", Val.varr [Val.vobj [("Memo", Val.vstr "/Date(bad)/")]])]) = true
    ∧ XeroStream.transform_dotnet_dates (XeroStream.transform_dotnet_dates
        (Val.vobj
          [("CreatedDateUTC", Val.vstr "/Date(1419937200000+0000)/"),
           ("Reference", Val.vstr "no date here"),
           ("JournalLines", Val.varr [Val.vobj [("Memo", Val.vstr "/Date(bad)/")]])]))
      = XeroStream.transform_dotnet_dates
        (Val.vobj
          [("CreatedDateUTC", Val.vstr "/Date(1419937200000+0000)/"),
           ("Reference", Val.vstr "no date here"),
           ("JournalLines", Val.varr [Val.vobj [("Memo", Val.vstr "/Date(bad)/")]])]) :=
  ⟨by decide,
   C10_transform_dotnet_dates_idem
     (Val.vobj
       [("CreatedDateUTC", Val.vstr "/Date(1419937200000+0000)/"),
        ("Reference", Val.vstr "no date here"),
        ("JournalLines", Val.varr [Val.vobj [("Memo", Val.vstr "/Date(bad)/")]])])
     (by decide)⟩

end TapXero
